import Mathlib

/-!
Verification of the sentiment-scoring engine of the
`mental_health_prediction_model` repository.

The engine lives in `sentiment_analyzer.py` (class `SentimentAnalyzer`:
`calculate_text_sentiment`, `calculate_behavioral_sentiment`,
`calculate_survey_sentiment`, `calculate_combined_sentiment`,
`_clean_text`, `_keyword_based_sentiment`) and in `app_enhanced.py`
(the `/calculate_sentiment` dispatch and `get_sentiment_interpretation`).

Modelling conventions:
* Python numeric literals (0.1, 0.15, ...) are modelled as exact rationals
  (`ℚ`), i.e. the arithmetic is real arithmetic, not IEEE-754 doubles.
* Python dictionaries of survey responses are modelled as association
  lists `List (String × String)`; dictionary truthiness is emptiness.
* The activities dictionary is modelled as a record of optional typed
  fields plus a flag recording whether any unrecognized key is present
  (such keys never influence the score, only the dictionary's truthiness).
* The external NLTK/TextBlob analyzers (not part of this repository) are
  parameters of the model: `textblob` returns `none` when the library
  raises, `vader` is `none` when unavailable and its inner result is
  `none` when it raises.  Everything written in the repository itself is
  embedded concretely.
-/

namespace MentalHealth

/-- External sub-scorers consumed by `calculate_text_sentiment`.  TextBlob
and NLTK VADER are third-party libraries, so their numeric behaviour is a
parameter; exceptions/unavailability are modelled with `Option`. -/
structure Analyzer where
  textblob : String → Option ℚ
  vader : Option (String → Option ℚ)

/-- The `text` argument of `calculate_text_sentiment`: a Python value that
is `None`, a string, or some non-string object. -/
inductive TextInput where
  | null : TextInput
  | str (s : String) : TextInput
  | nonString : TextInput

/-! ### `_clean_text` (sentiment_analyzer.py lines 225-239) -/

/-- A character matched by the URL body of the regex
`http[s]?://(?:[a-zA-Z]|[0-9]|[$-_@.&+]|[!*\\(\\),]|(?:%[0-9a-fA-F][0-9a-fA-F]))+`.
`[$-_@.&+]` is the character range from `$` (36) to `_` (95) together with
`@ . & +` (all already inside the range); the `%xx` escape alternative is
subsumed because `%` and hexadecimal digits all lie in the union below. -/
def urlChar (c : Char) : Bool :=
  (('a' ≤ c && c ≤ 'z') || ('A' ≤ c && c ≤ 'Z') || ('0' ≤ c && c ≤ '9') ||
   ('$' ≤ c && c ≤ '_') ||
   c = '!' || c = '*' || c = '\\' || c = '(' || c = ')' || c = ',')

/-- If the character list starts with `https://` or `http://` followed by at
least one `urlChar`, return the remainder after the maximal greedy match
(what `re.sub` removes at this position); otherwise `none`. -/
def dropUrlAt (cs : List Char) : Option (List Char) :=
  let tryScheme : List Char → Option (List Char) := fun scheme =>
    if cs.take scheme.length = scheme then
      let after := cs.drop scheme.length
      if (after.takeWhile urlChar).isEmpty then none
      else some (after.dropWhile urlChar)
    else none
  match tryScheme ('h' :: 't' :: 't' :: 'p' :: 's' :: ':' :: '/' :: '/' :: []) with
  | some r => some r
  | none => tryScheme ('h' :: 't' :: 't' :: 'p' :: ':' :: '/' :: '/' :: [])

/-- Left-to-right scan deleting every URL match, fuel-indexed so the
recursion is structural; each step consumes at least one input character,
so fuel equal to the input length (see `stripURLs`) never runs out. -/
def stripURLsGo : Nat → List Char → List Char
  | _, [] => []
  | 0, l => l
  | fuel + 1, c :: rest =>
    match dropUrlAt (c :: rest) with
    | some r => stripURLsGo fuel r
    | none => c :: stripURLsGo fuel rest

/-- `re.sub(url_pattern, '', text)`: remove every (leftmost, greedy,
non-overlapping) URL match. -/
def stripURLs (l : List Char) : List Char :=
  stripURLsGo l.length l

/-- `re.sub(r'\s+', ' ', text)`: collapse every run of whitespace into a
single space. -/
def collapseWS : List Char → List Char
  | [] => []
  | [c] => [if c.isWhitespace then ' ' else c]
  | c :: d :: rest =>
    if c.isWhitespace && d.isWhitespace then collapseWS (d :: rest)
    else (if c.isWhitespace then ' ' else c) :: collapseWS (d :: rest)

/-- A character kept by `re.sub(r'[^\w\s.,!?]', '', text)`: word
characters, whitespace, and `. , ! ?`. -/
def keepChar (c : Char) : Bool :=
  c.isAlphanum || c = '_' || c.isWhitespace ||
  c = '.' || c = ',' || c = '!' || c = '?'

/-- Python `str.strip()`: drop leading and trailing whitespace. -/
def trimChars (l : List Char) : List Char :=
  ((l.dropWhile Char.isWhitespace).reverse.dropWhile Char.isWhitespace).reverse

/-- `SentimentAnalyzer._clean_text`: lowercase, remove URLs, collapse
whitespace, remove special characters, strip. -/
def clean_text (s : String) : String :=
  String.mk
    (trimChars ((collapseWS (stripURLs (s.toList.map Char.toLower))).filter keepChar))

/-! ### `_keyword_based_sentiment` (lines 241-264) -/

def positive_words : List String :=
  ["good", "great", "excellent", "amazing", "wonderful", "fantastic",
   "happy", "joy", "love", "like", "enjoy", "pleased", "satisfied",
   "positive", "optimistic", "hopeful", "confident", "energetic",
   "motivated", "excited", "grateful", "thankful", "blessed"]

def negative_words : List String :=
  ["bad", "terrible", "awful", "horrible", "disgusting", "hate",
   "sad", "depressed", "angry", "frustrated", "annoyed", "upset",
   "negative", "pessimistic", "hopeless", "worried", "anxious",
   "stressed", "tired", "exhausted", "lonely", "isolated"]

/-- Python `str.split()` with no separator: split on runs of whitespace,
producing no empty tokens.  The accumulator holds the current token's
characters in reverse. -/
def splitWSGo : List Char → List Char → List String
  | [], acc => if acc.isEmpty then [] else [String.mk acc.reverse]
  | c :: rest, acc =>
    if c.isWhitespace then
      if acc.isEmpty then splitWSGo rest []
      else String.mk acc.reverse :: splitWSGo rest []
    else splitWSGo rest (c :: acc)

/-- Python `text.split()`. -/
def splitWS (text : String) : List String :=
  splitWSGo text.toList []

/-- `SentimentAnalyzer._keyword_based_sentiment`: Python `text.split()`
splits on whitespace runs discarding empty tokens; score is
`(pos - neg) / (pos + neg)` or `0.0` when both counts are zero. -/
def keyword_based_sentiment (text : String) : ℚ :=
  let words := splitWS text
  let positive_count : ℚ := ((words.filter (fun w => positive_words.contains w)).length : ℚ)
  let negative_count : ℚ := ((words.filter (fun w => negative_words.contains w)).length : ℚ)
  if positive_count + negative_count = 0 then 0
  else (positive_count - negative_count) / (positive_count + negative_count)

/-! ### `calculate_text_sentiment` (lines 23-69) -/

/-- `SentimentAnalyzer.calculate_text_sentiment`: return `0.0` for null,
empty or non-string input; otherwise average the sub-scores that
succeeded (TextBlob if it did not raise, VADER if available and it did
not raise, and the keyword heuristic, always) and clamp to [-1, 1].
The trailing `return 0.0` of the source (empty score list) is kept even
though the keyword heuristic makes the list nonempty. -/
def calculate_text_sentiment (a : Analyzer) : TextInput → ℚ
  | .null => 0
  | .nonString => 0
  | .str text =>
    if text = "" then 0
    else
      let cleaned := clean_text text
      let scores : List ℚ :=
        (match a.textblob cleaned with
         | some q => [q]
         | none => []) ++
        (match a.vader with
         | some f =>
           match f cleaned with
           | some q => [q]
           | none => []
         | none => []) ++
        [keyword_based_sentiment cleaned]
      if scores.isEmpty then 0
      else max (-1 : ℚ) (min 1 (scores.sum / (scores.length : ℚ)))

/-! ### `calculate_behavioral_sentiment` (lines 71-118) -/

/-- The `activities_data` dictionary: optional typed recognized keys, plus
a flag for the presence of any other key (which the scorer never reads,
but which makes the Python dictionary truthy). -/
structure ActivitiesData where
  sleep_hours : Option ℚ := none
  activity_level : Option String := none
  social_interaction : Option String := none
  work_stress : Option String := none
  has_other_keys : Bool := false

/-- Python truthiness of the activities dictionary: it is truthy iff it
holds at least one key. -/
def ActivitiesData.truthy (d : ActivitiesData) : Bool :=
  d.sleep_hours.isSome || d.activity_level.isSome || d.social_interaction.isSome ||
  d.work_stress.isSome || d.has_other_keys

/-- `activity_scores.get(activity_level, 0.0)` with
`{'low': -0.1, 'moderate': 0.0, 'high': 0.1}`. -/
def activity_scores (v : String) : ℚ :=
  if v = "low" then -(1/10) else if v = "moderate" then 0
  else if v = "high" then 1/10 else 0

/-- `social_scores.get(social_interaction, 0.0)` with
`{'low': -0.15, 'moderate': 0.0, 'high': 0.15}`. -/
def social_scores (v : String) : ℚ :=
  if v = "low" then -(3/20) else if v = "moderate" then 0
  else if v = "high" then 3/20 else 0

/-- `stress_scores.get(work_stress, 0.0)` with
`{'low': 0.1, 'moderate': 0.0, 'high': -0.15}`. -/
def stress_scores (v : String) : ℚ :=
  if v = "low" then 1/10 else if v = "moderate" then 0
  else if v = "high" then -(3/20) else 0

/-- `SentimentAnalyzer.calculate_behavioral_sentiment`: start at 0.5,
apply the sleep band adjustment (`sleep_hours` defaults to 8 when the key
is absent), add the three enum adjustments (each key defaulting to
`'moderate'`), clamp to [0, 1]. -/
def calculate_behavioral_sentiment (d : ActivitiesData) : ℚ :=
  let score : ℚ := 1/2
  let sleep_hours := d.sleep_hours.getD 8
  let score :=
    if 7 ≤ sleep_hours ∧ sleep_hours ≤ 9 then score + 1/10
    else if sleep_hours < 6 ∨ 10 < sleep_hours then score - 1/10
    else score
  let score := score + activity_scores (d.activity_level.getD "moderate")
  let score := score + social_scores (d.social_interaction.getD "moderate")
  let score := score + stress_scores (d.work_stress.getD "moderate")
  max 0 (min 1 score)

/-! ### `calculate_survey_sentiment` (lines 120-180) -/

/-- `question_scores['mood_today']`. -/
def mood_today_table (a : String) : Option ℚ :=
  if a = "very_poor" then some 0 else if a = "poor" then some (1/4)
  else if a = "fair" then some (1/2) else if a = "good" then some (3/4)
  else if a = "excellent" then some 1 else none

/-- `question_scores['energy_level']`. -/
def energy_level_table (a : String) : Option ℚ :=
  if a = "very_low" then some 0 else if a = "low" then some (1/4)
  else if a = "moderate" then some (1/2) else if a = "high" then some (3/4)
  else if a = "very_high" then some 1 else none

/-- `question_scores['stress_level']` (inverted scale). -/
def stress_level_table (a : String) : Option ℚ :=
  if a = "very_high" then some 0 else if a = "high" then some (1/4)
  else if a = "moderate" then some (1/2) else if a = "low" then some (3/4)
  else if a = "very_low" then some 1 else none

/-- `question_scores['sleep_quality']`. -/
def sleep_quality_table (a : String) : Option ℚ :=
  if a = "very_poor" then some 0 else if a = "poor" then some (1/4)
  else if a = "fair" then some (1/2) else if a = "good" then some (3/4)
  else if a = "excellent" then some 1 else none

/-- `question_scores['social_satisfaction']`. -/
def social_satisfaction_table (a : String) : Option ℚ :=
  if a = "very_dissatisfied" then some 0 else if a = "dissatisfied" then some (1/4)
  else if a = "neutral" then some (1/2) else if a = "satisfied" then some (3/4)
  else if a = "very_satisfied" then some 1 else none

/-- `question in question_scores and answer in question_scores[question]`:
`some v` exactly when the question is recognized and the answer is a
recognized label for it, with `v` the mapped value. -/
def lookupScore (q a : String) : Option ℚ :=
  if q = "mood_today" then mood_today_table a
  else if q = "energy_level" then energy_level_table a
  else if q = "stress_level" then stress_level_table a
  else if q = "sleep_quality" then sleep_quality_table a
  else if q = "social_satisfaction" then social_satisfaction_table a
  else none

/-- One iteration of the survey loop: accumulate `(total_score,
question_count)`. -/
def survey_step (acc : ℚ × ℕ) (qa : String × String) : ℚ × ℕ :=
  match lookupScore qa.1 qa.2 with
  | some v => (acc.1 + v, acc.2 + 1)
  | none => acc

/-- `SentimentAnalyzer.calculate_survey_sentiment`: fold the loop over the
responses; return `total / count` when `count > 0`, else `0.5`. -/
def calculate_survey_sentiment (rs : List (String × String)) : ℚ :=
  let acc := rs.foldl survey_step (0, 0)
  if 0 < acc.2 then acc.1 / (acc.2 : ℚ) else 1/2

/-! ### `calculate_combined_sentiment` (lines 182-223) -/

/-- The `(score, weight)` pairs appended by the three `if` blocks of
`calculate_combined_sentiment`: the source keeps two parallel lists
`scores` and `weights`, always pushed together, modelled here as one list
of pairs.  `if text_input:` is Python truthiness (`None` and `""` are
falsy), likewise for the two dictionaries. -/
def combined_entries (a : Analyzer) (text_input : Option String)
    (activities_data : Option ActivitiesData)
    (survey_responses : Option (List (String × String))) : List (ℚ × ℚ) :=
  (match text_input with
   | some t =>
     if t = "" then []
     else [((calculate_text_sentiment a (.str t) + 1) / 2, 2/5)]
   | none => []) ++
  (match activities_data with
   | some d => if d.truthy then [(calculate_behavioral_sentiment d, 3/10)] else []
   | none => []) ++
  (match survey_responses with
   | some rs => if rs.isEmpty then [] else [(calculate_survey_sentiment rs, 3/10)]
   | none => [])

/-- `SentimentAnalyzer.calculate_combined_sentiment`: weighted average of
the scores of the truthy modalities (text remapped to [0,1] and weighted
0.4, activities 0.3, survey 0.3), or `0.5` when no modality is truthy. -/
def calculate_combined_sentiment (a : Analyzer) (text_input : Option String)
    (activities_data : Option ActivitiesData)
    (survey_responses : Option (List (String × String))) : ℚ :=
  let entries := combined_entries a text_input activities_data survey_responses
  if entries.isEmpty then 1/2
  else ((entries.map (fun p => p.1 * p.2)).sum) / ((entries.map Prod.snd).sum)

/-! ### `/calculate_sentiment` dispatch (app_enhanced.py lines 189-245) -/

/-- The JSON payload of a `/calculate_sentiment` request, restricted to
well-typed values: `none` models an absent key. -/
structure RequestData where
  text : Option String := none
  activities : Option ActivitiesData := none
  survey : Option (List (String × String)) := none

/-- `'text' in data and data['text'].strip()`: the key is present and its
value contains a non-whitespace character (Python `str.strip()`
truthiness). -/
def hasNonBlankText (d : RequestData) : Bool :=
  match d.text with
  | some t => t.toList.any (fun c => !c.isWhitespace)
  | none => false

/-- The dispatch of `calculate_sentiment` in `app_enhanced.py`: returns
the pair `(sentiment_score, method_used)`.  Text wins when present and
non-blank; otherwise the `activities` key (regardless of its value), then
the `survey` key, then combined analysis over whatever `data.get` finds
(at that point `activities` and `survey` are absent, but a present blank
`text` is still forwarded). -/
def calculate_sentiment (a : Analyzer) (d : RequestData) : ℚ × String :=
  if hasNonBlankText d then
    (calculate_text_sentiment a (.str (d.text.getD "")), "text_analysis")
  else
    match d.activities with
    | some ad => (calculate_behavioral_sentiment ad, "behavioral_analysis")
    | none =>
      match d.survey with
      | some sv => (calculate_survey_sentiment sv, "survey_analysis")
      | none =>
        (calculate_combined_sentiment a d.text d.activities d.survey,
         "combined_analysis")

/-! ### `get_sentiment_interpretation` (app_enhanced.py lines 252-274) -/

structure Interpretation where
  level : String
  description : String
  recommendation : String
  color : String

/-- `get_sentiment_interpretation`: `score >= 0.7` positive, else
`score <= 0.3` negative, else neutral. -/
def get_sentiment_interpretation (score : ℚ) : Interpretation :=
  if 7/10 ≤ score then
    { level := "positive"
      description := "Positive sentiment - High mental health"
      recommendation := "Continue maintaining your positive outlook and healthy habits!"
      color := "green" }
  else if score ≤ 3/10 then
    { level := "negative"
      description := "Negative sentiment - Low mental health"
      recommendation := "Consider reaching out to a mental health professional for support."
      color := "red" }
  else
    { level := "neutral"
      description := "Neutral sentiment - Moderate mental health"
      recommendation := "Monitor your mental health and consider self-care practices."
      color := "blue" }

/-! ### Spec-side definitions

These follow the wording of the specification (spec.md) rather than the
source, and are compared with the source embeddings in the theorems. -/

/-- Spec §4.4: a text modality is "actually supplied" when it is
non-null and non-empty. -/
def text_supplied : Option String → Bool
  | some t => t ≠ ""
  | none => false

/-- Spec §4.4: an activities modality is supplied when non-null and
non-empty (the dictionary holds at least one key). -/
def activities_supplied : Option ActivitiesData → Bool
  | some d => d.truthy
  | none => false

/-- Spec §4.4: a survey modality is supplied when non-null and
non-empty. -/
def survey_supplied : Option (List (String × String)) → Bool
  | some rs => !rs.isEmpty
  | none => false

/-- Spec §4.2 sleep adjustment: `+0.1` if `7 <= sleep_hours <= 9`,
`-0.1` if `sleep_hours < 6` or `sleep_hours > 10`, `0` otherwise. -/
def spec_sleep_adjust (h : ℚ) : ℚ :=
  if 7 ≤ h ∧ h ≤ 9 then 1/10 else if h < 6 ∨ 10 < h then -(1/10) else 0

/-- Spec §4.2 activity-level adjustment: low `-0.1`, high `+0.1`, all
other values (including unrecognized) `0`. -/
def spec_activity_adjust (v : String) : ℚ :=
  if v = "low" then -(1/10) else if v = "high" then 1/10 else 0

/-- Spec §4.2 social-interaction adjustment: low `-0.15`, high `+0.15`,
otherwise `0`. -/
def spec_social_adjust (v : String) : ℚ :=
  if v = "low" then -(3/20) else if v = "high" then 3/20 else 0

/-- Spec §4.2 work-stress adjustment: low `+0.1`, high `-0.15`,
otherwise `0`. -/
def spec_stress_adjust (v : String) : ℚ :=
  if v = "low" then 1/10 else if v = "high" then -(3/20) else 0

/-- Spec §4.3: the mapped values of exactly those survey entries whose
key is a recognized question and whose answer is a recognized label for
that question. -/
def recognized_entries (rs : List (String × String)) : List ℚ :=
  rs.filterMap (fun qa => lookupScore qa.1 qa.2)

/-- A concrete analyzer instance: TextBlob raising on every input and
VADER unavailable (the degraded environment the source's `try/except`
blocks anticipate); used to instantiate universally quantified
theorems. -/
def A0 : Analyzer := { textblob := fun _ => none, vader := none }

/-! ### Helper lemmas -/

lemma clamp_mem (lo hi x : ℚ) (h : lo ≤ hi) :
    lo ≤ max lo (min hi x) ∧ max lo (min hi x) ≤ hi :=
  ⟨le_max_left _ _, max_le h (min_le_left _ _)⟩

lemma text_sentiment_range (a : Analyzer) (t : TextInput) :
    -1 ≤ calculate_text_sentiment a t ∧ calculate_text_sentiment a t ≤ 1 := by
  cases t with
  | null => norm_num [calculate_text_sentiment]
  | nonString => norm_num [calculate_text_sentiment]
  | str s =>
    simp only [calculate_text_sentiment]
    split_ifs with h1 h2
    · norm_num
    · norm_num
    · exact clamp_mem (-1) 1 _ (by norm_num)

lemma behavioral_sentiment_range (d : ActivitiesData) :
    0 ≤ calculate_behavioral_sentiment d ∧ calculate_behavioral_sentiment d ≤ 1 := by
  simp only [calculate_behavioral_sentiment]
  exact clamp_mem 0 1 _ (by norm_num)

lemma mood_today_table_mem (a : String) (v : ℚ) (h : mood_today_table a = some v) :
    0 ≤ v ∧ v ≤ 1 := by
  simp only [mood_today_table] at h
  split_ifs at h <;> injection h with h <;> subst h <;> norm_num

lemma energy_level_table_mem (a : String) (v : ℚ) (h : energy_level_table a = some v) :
    0 ≤ v ∧ v ≤ 1 := by
  simp only [energy_level_table] at h
  split_ifs at h <;> injection h with h <;> subst h <;> norm_num

lemma stress_level_table_mem (a : String) (v : ℚ) (h : stress_level_table a = some v) :
    0 ≤ v ∧ v ≤ 1 := by
  simp only [stress_level_table] at h
  split_ifs at h <;> injection h with h <;> subst h <;> norm_num

lemma sleep_quality_table_mem (a : String) (v : ℚ) (h : sleep_quality_table a = some v) :
    0 ≤ v ∧ v ≤ 1 := by
  simp only [sleep_quality_table] at h
  split_ifs at h <;> injection h with h <;> subst h <;> norm_num

lemma social_satisfaction_table_mem (a : String) (v : ℚ)
    (h : social_satisfaction_table a = some v) : 0 ≤ v ∧ v ≤ 1 := by
  simp only [social_satisfaction_table] at h
  split_ifs at h <;> injection h with h <;> subst h <;> norm_num

lemma lookupScore_mem (q a : String) (v : ℚ) (h : lookupScore q a = some v) :
    0 ≤ v ∧ v ≤ 1 := by
  simp only [lookupScore] at h
  split_ifs at h
  · exact mood_today_table_mem a v h
  · exact energy_level_table_mem a v h
  · exact stress_level_table_mem a v h
  · exact sleep_quality_table_mem a v h
  · exact social_satisfaction_table_mem a v h

lemma survey_foldl_eq (rs : List (String × String)) (t : ℚ) (c : ℕ) :
    rs.foldl survey_step (t, c) =
      (t + (recognized_entries rs).sum, c + (recognized_entries rs).length) := by
  induction rs generalizing t c with
  | nil => simp [recognized_entries]
  | cons qa rest ih =>
    simp only [List.foldl_cons, recognized_entries, List.filterMap_cons] at *
    cases h : lookupScore qa.1 qa.2 with
    | none => simp [survey_step, h, ih]
    | some v =>
      simp only [survey_step, h, ih, List.sum_cons, List.length_cons]
      rw [Prod.mk.injEq]
      exact ⟨by ring, by omega⟩

lemma survey_eq_mean (rs : List (String × String)) :
    calculate_survey_sentiment rs =
      if recognized_entries rs = [] then 1/2
      else (recognized_entries rs).sum / ((recognized_entries rs).length : ℚ) := by
  simp only [calculate_survey_sentiment, survey_foldl_eq, zero_add, Nat.zero_add]
  by_cases h : recognized_entries rs = []
  · simp [h]
  · have hlen : 0 < (recognized_entries rs).length := List.length_pos.mpr h
    simp [h, hlen]

lemma list_sum_bounds (l : List ℚ) (h : ∀ v ∈ l, 0 ≤ v ∧ v ≤ 1) :
    0 ≤ l.sum ∧ l.sum ≤ (l.length : ℚ) := by
  induction l with
  | nil => simp
  | cons x xs ih =>
    have hx := h x (by simp)
    have ihh := ih (fun v hv => h v (by simp [hv]))
    simp only [List.sum_cons, List.length_cons]
    push_cast
    exact ⟨by linarith [hx.1, ihh.1], by linarith [hx.2, ihh.2]⟩

lemma recognized_mem_bounds (rs : List (String × String)) (v : ℚ)
    (hv : v ∈ recognized_entries rs) : 0 ≤ v ∧ v ≤ 1 := by
  simp only [recognized_entries, List.mem_filterMap] at hv
  obtain ⟨qa, _, h⟩ := hv
  exact lookupScore_mem qa.1 qa.2 v h

lemma survey_sentiment_range (rs : List (String × String)) :
    0 ≤ calculate_survey_sentiment rs ∧ calculate_survey_sentiment rs ≤ 1 := by
  rw [survey_eq_mean]
  by_cases h : recognized_entries rs = []
  · simp [h]
    norm_num
  · have hb := list_sum_bounds _ (recognized_mem_bounds rs)
    have hlen : (0 : ℚ) < ((recognized_entries rs).length : ℚ) := by
      exact_mod_cast List.length_pos.mpr h
    simp only [h, if_false]
    refine ⟨div_nonneg hb.1 hlen.le, ?_⟩
    rw [div_le_one hlen]
    exact hb.2

lemma combined_entries_bounds (a : Analyzer) (t? : Option String)
    (d? : Option ActivitiesData) (s? : Option (List (String × String))) :
    ∀ p ∈ combined_entries a t? d? s?, (0 ≤ p.1 ∧ p.1 ≤ 1) ∧ 0 < p.2 := by
  intro p hp
  simp only [combined_entries, List.mem_append] at hp
  rcases hp with (hp | hp) | hp
  · cases t? with
    | none => simp at hp
    | some t =>
      by_cases ht : t = "" <;> simp [ht] at hp
      have hr := text_sentiment_range a (.str t)
      subst hp
      refine ⟨⟨by linarith [hr.1], by linarith [hr.2]⟩, by norm_num⟩
  · cases d? with
    | none => simp at hp
    | some d =>
      by_cases hd : d.truthy <;> simp [hd] at hp
      have hr := behavioral_sentiment_range d
      subst hp
      exact ⟨⟨hr.1, hr.2⟩, by norm_num⟩
  · cases s? with
    | none => simp at hp
    | some rs =>
      by_cases hs : rs.isEmpty <;> simp [hs] at hp
      have hr := survey_sentiment_range rs
      subst hp
      exact ⟨⟨hr.1, hr.2⟩, by norm_num⟩

lemma weighted_sums_bounds (l : List (ℚ × ℚ))
    (h : ∀ p ∈ l, (0 ≤ p.1 ∧ p.1 ≤ 1) ∧ 0 < p.2) :
    0 ≤ (l.map (fun p => p.1 * p.2)).sum ∧
      (l.map (fun p => p.1 * p.2)).sum ≤ (l.map Prod.snd).sum ∧
      (l ≠ [] → 0 < (l.map Prod.snd).sum) := by
  induction l with
  | nil => simp
  | cons x xs ih =>
    have hx := h x (by simp)
    have ihh := ih (fun p hp => h p (by simp [hp]))
    have hmul1 : 0 ≤ x.1 * x.2 := mul_nonneg hx.1.1 hx.2.le
    have hmul2 : x.1 * x.2 ≤ x.2 := mul_le_of_le_one_left hx.2.le hx.1.2
    have hxs : 0 ≤ (xs.map Prod.snd).sum := by
      by_cases hn : xs = []
      · simp [hn]
      · exact (ihh.2.2 hn).le
    simp only [List.map_cons, List.sum_cons]
    refine ⟨by linarith [ihh.1], by linarith [ihh.2.1], fun _ => by linarith [hx.2]⟩

lemma combined_sentiment_range (a : Analyzer) (t? : Option String)
    (d? : Option ActivitiesData) (s? : Option (List (String × String))) :
    0 ≤ calculate_combined_sentiment a t? d? s? ∧
      calculate_combined_sentiment a t? d? s? ≤ 1 := by
  simp only [calculate_combined_sentiment]
  by_cases h : (combined_entries a t? d? s?).isEmpty
  · simp [h]
    norm_num
  · have hb := weighted_sums_bounds _ (combined_entries_bounds a t? d? s?)
    have hne : combined_entries a t? d? s? ≠ [] := by
      simpa [List.isEmpty_iff] using h
    have hpos := hb.2.2 hne
    simp only [h, Bool.false_eq_true, if_false]
    refine ⟨div_nonneg hb.1 hpos.le, ?_⟩
    rw [div_le_one hpos]
    exact hb.2.1

lemma combined_text_only (a : Analyzer) (t : String) :
    calculate_combined_sentiment a (some t) none none =
      (calculate_text_sentiment a (.str t) + 1) / 2 := by
  by_cases ht : t = ""
  · subst ht
    simp [calculate_combined_sentiment, combined_entries, calculate_text_sentiment]
  · simp only [calculate_combined_sentiment, combined_entries, ht]
    simp [ht]

lemma combined_activities_only (a : Analyzer) (d : ActivitiesData)
    (hd : d.truthy = true) :
    calculate_combined_sentiment a none (some d) none =
      calculate_behavioral_sentiment d := by
  simp only [calculate_combined_sentiment, combined_entries, hd]
  simp

lemma combined_survey_only (a : Analyzer) (rs : List (String × String)) :
    calculate_combined_sentiment a none none (some rs) =
      calculate_survey_sentiment rs := by
  by_cases hs : rs.isEmpty
  · have hrs : rs = [] := by simpa [List.isEmpty_iff] using hs
    subst hrs
    simp [calculate_combined_sentiment, combined_entries, calculate_survey_sentiment]
  · simp only [calculate_combined_sentiment, combined_entries, hs]
    simp [hs]

lemma activity_scores_eq_spec (v : String) : activity_scores v = spec_activity_adjust v := by
  simp only [activity_scores, spec_activity_adjust]
  split_ifs <;> simp_all

lemma social_scores_eq_spec (v : String) : social_scores v = spec_social_adjust v := by
  simp only [social_scores, spec_social_adjust]
  split_ifs <;> simp_all

lemma stress_scores_eq_spec (v : String) : stress_scores v = spec_stress_adjust v := by
  simp only [stress_scores, spec_stress_adjust]
  split_ifs <;> simp_all

lemma behavioral_eq_spec (d : ActivitiesData) :
    calculate_behavioral_sentiment d =
      max 0 (min 1 (1/2 + spec_sleep_adjust (d.sleep_hours.getD 8) +
        spec_activity_adjust (d.activity_level.getD "moderate") +
        spec_social_adjust (d.social_interaction.getD "moderate") +
        spec_stress_adjust (d.work_stress.getD "moderate"))) := by
  simp only [calculate_behavioral_sentiment]
  rw [activity_scores_eq_spec, social_scores_eq_spec, stress_scores_eq_spec]
  have hsleep : (if 7 ≤ d.sleep_hours.getD 8 ∧ d.sleep_hours.getD 8 ≤ 9 then (1/2 : ℚ) + 1/10
      else if d.sleep_hours.getD 8 < 6 ∨ 10 < d.sleep_hours.getD 8 then 1/2 - 1/10 else 1/2) =
      1/2 + spec_sleep_adjust (d.sleep_hours.getD 8) := by
    simp only [spec_sleep_adjust]
    split_ifs <;> ring
  rw [hsleep]

lemma behavioral_empty_eq : calculate_behavioral_sentiment {} = 3/5 := by
  simp [calculate_behavioral_sentiment, activity_scores, social_scores, stress_scores,
    min_def, max_def]
  norm_num

lemma behavioral_example_eq :
    calculate_behavioral_sentiment ⟨some 8, some "high", some "high", some "low", false⟩ = 19/20 := by
  simp [calculate_behavioral_sentiment, activity_scores, social_scores, stress_scores,
    min_def, max_def]
  norm_num

lemma text_bad_keyword : keyword_based_sentiment "bad" = -1 := by
  simp [keyword_based_sentiment, show splitWS "bad" = ["bad"] from by decide,
    positive_words, negative_words]

lemma clean_bad : clean_text "bad" = "bad" := by decide

lemma text_bad_eq : calculate_text_sentiment A0 (.str "bad") = -1 := by
  simp [calculate_text_sentiment, A0, clean_bad, text_bad_keyword, min_def, max_def]

lemma combined_entries_eq (a : Analyzer) (t? : Option String)
    (d? : Option ActivitiesData) (s? : Option (List (String × String))) :
    combined_entries a t? d? s? =
      (if text_supplied t? = true
        then [((calculate_text_sentiment a (.str (t?.getD "")) + 1) / 2, (2/5 : ℚ))] else []) ++
      (if activities_supplied d? = true
        then [(calculate_behavioral_sentiment (d?.getD {}), (3/10 : ℚ))] else []) ++
      (if survey_supplied s? = true
        then [(calculate_survey_sentiment (s?.getD []), (3/10 : ℚ))] else []) := by
  rcases t? with _ | t <;> rcases d? with _ | d <;> rcases s? with _ | rs <;>
    simp [combined_entries, text_supplied, activities_supplied, survey_supplied]

/-! ### The claims -/

/-- C1: fusion with a single supplied modality returns that modality's own
normalized [0,1] score, the fixed weight cancelling: for every text string
`t` (even the empty one) the combined score equals
`(score_text t + 1) / 2`, for every supplied (non-empty) activities
mapping it equals the behavioral score unchanged, and for every survey
mapping it equals the survey score unchanged. -/
theorem C1_single_modality_fusion (a : Analyzer) :
    (∀ t : String, calculate_combined_sentiment a (some t) none none =
        (calculate_text_sentiment a (.str t) + 1) / 2) ∧
    (∀ d : ActivitiesData, d.truthy = true →
        calculate_combined_sentiment a none (some d) none =
          calculate_behavioral_sentiment d) ∧
    (∀ rs : List (String × String),
        calculate_combined_sentiment a none none (some rs) =
          calculate_survey_sentiment rs) :=
  ⟨combined_text_only a, combined_activities_only a, combined_survey_only a⟩

/-- Witness for C1 at a concrete supplied activities mapping. -/
theorem C1_single_modality_fusion_witness :
    calculate_combined_sentiment A0 none (some { sleep_hours := some 8 }) none =
      calculate_behavioral_sentiment { sleep_hours := some 8 } :=
  (C1_single_modality_fusion A0).2.1 { sleep_hours := some 8 } rfl

/-- C2 (counterexample): the behavioral scorer applied to an empty mapping
does NOT return 0.5 — `sleep_hours` defaults to 8, which lies in the
good-sleep band and earns +0.1. -/
theorem C2_empty_behavioral_counterexample :
    calculate_behavioral_sentiment {} ≠ 1/2 := by
  rw [behavioral_empty_eq]
  norm_num

/-- C2 (amended): the behavioral scorer applied to an ActivityProfile with
no components given returns exactly 0.6 (0.5 base plus the +0.1 sleep
adjustment earned by the default `sleep_hours = 8`). -/
theorem C2_empty_behavioral_amended : calculate_behavioral_sentiment {} = 3/5 :=
  behavioral_empty_eq

/-- C3: interpretation boundary semantics — level is `positive` (with the
positive description and green color) iff `score >= 0.7`, `negative` (with
the negative description and red color) iff `score <= 0.3`, `neutral`
(blue) iff `0.3 < score < 0.7`; the boundary points 0.7 and 0.3 resolve to
positive and negative respectively. -/
theorem C3_interpretation_boundaries (s : ℚ) :
    (((get_sentiment_interpretation s).level = "positive" ∧
      (get_sentiment_interpretation s).description = "Positive sentiment - High mental health" ∧
      (get_sentiment_interpretation s).color = "green") ↔ 7/10 ≤ s) ∧
    (((get_sentiment_interpretation s).level = "negative" ∧
      (get_sentiment_interpretation s).description = "Negative sentiment - Low mental health" ∧
      (get_sentiment_interpretation s).color = "red") ↔ s ≤ 3/10) ∧
    (((get_sentiment_interpretation s).level = "neutral" ∧
      (get_sentiment_interpretation s).color = "blue") ↔ (3/10 < s ∧ s < 7/10)) ∧
    (get_sentiment_interpretation (7/10)).level = "positive" ∧
    (get_sentiment_interpretation (3/10)).level = "negative" := by
  refine ⟨?_, ?_, ?_, ?_, ?_⟩
  · simp only [get_sentiment_interpretation]
    split_ifs with h1 h2 <;> simp_all
  · simp only [get_sentiment_interpretation]
    split_ifs with h1 h2 <;> simp_all <;> linarith
  · simp only [get_sentiment_interpretation]
    split_ifs with h1 h2 <;> simp_all
  · simp [get_sentiment_interpretation]
  · have h1 : ¬((7 : ℚ)/10 ≤ 3/10) := by norm_num
    simp [get_sentiment_interpretation, h1]

/-- C4 (counterexample): a payload whose `text` key is present but blank
(a single space) together with an `activities` key is dispatched to
behavioral analysis, not text analysis — presence of the `text` key alone
is not enough. -/
theorem C4_text_key_priority_counterexample :
    (calculate_sentiment A0 { text := some " ", activities := some ({} : ActivitiesData) }).2 =
      "behavioral_analysis" ∧
    (calculate_sentiment A0 { text := some " ", activities := some ({} : ActivitiesData) }).2 ≠
      "text_analysis" := by
  constructor <;> decide

/-- C4 (amended): dispatch priority at the score surface — if the `text`
key is present with a value that is non-blank after stripping whitespace,
text-only scoring is used (`text_analysis`); else if the `activities` key
is present, behavioral-only; else if the `survey` key is present,
survey-only; else combined scoring over whatever optional fields are
present (`combined_analysis`). -/
theorem C4_amended_dispatch_priority (a : Analyzer) (d : RequestData) :
    (hasNonBlankText d = true →
      calculate_sentiment a d =
        (calculate_text_sentiment a (.str (d.text.getD "")), "text_analysis")) ∧
    (hasNonBlankText d = false → ∀ ad, d.activities = some ad →
      calculate_sentiment a d = (calculate_behavioral_sentiment ad, "behavioral_analysis")) ∧
    (hasNonBlankText d = false → d.activities = none → ∀ sv, d.survey = some sv →
      calculate_sentiment a d = (calculate_survey_sentiment sv, "survey_analysis")) ∧
    (hasNonBlankText d = false → d.activities = none → d.survey = none →
      calculate_sentiment a d =
        (calculate_combined_sentiment a d.text d.activities d.survey, "combined_analysis")) := by
  refine ⟨fun h => ?_, fun h ad ha => ?_, fun h ha sv hs => ?_, fun h ha hs => ?_⟩
  · simp [calculate_sentiment, h]
  · simp [calculate_sentiment, h, ha]
  · simp [calculate_sentiment, h, ha, hs]
  · simp [calculate_sentiment, h, ha, hs]

/-- Witness for the amended C4 at a concrete non-blank text payload. -/
theorem C4_amended_dispatch_priority_witness :
    calculate_sentiment A0 { text := some "ok" } =
      (calculate_text_sentiment A0 (.str "ok"), "text_analysis") :=
  (C4_amended_dispatch_priority A0 { text := some "ok" }).1 (by decide)

/-- C5: the behavioral scorer starts at 0.5, adds exactly the specified
sleep/activity/social/work-stress adjustments (unrecognized enum values
contributing 0), clamps to [0,1]; and the concrete scenario
sleep 8 / high activity / high social / low stress scores 0.95. -/
theorem C5_behavioral_adjustments (h : ℚ) (al so st : String) :
    calculate_behavioral_sentiment ⟨some h, some al, some so, some st, false⟩ =
      max 0 (min 1 (1/2 + spec_sleep_adjust h + spec_activity_adjust al +
        spec_social_adjust so + spec_stress_adjust st)) ∧
    calculate_behavioral_sentiment ⟨some 8, some "high", some "high", some "low", false⟩ =
      19/20 :=
  ⟨behavioral_eq_spec ⟨some h, some al, some so, some st, false⟩, behavioral_example_eq⟩

/-- C6: the survey score equals the arithmetic mean of the fixed-table
values of exactly those entries whose key is a recognized question with a
recognized label (others silently excluded), and 0.5 when no entry
matches. -/
theorem C6_survey_is_mean (rs : List (String × String)) :
    calculate_survey_sentiment rs =
      if recognized_entries rs = [] then 1/2
      else (recognized_entries rs).sum / ((recognized_entries rs).length : ℚ) :=
  survey_eq_mean rs

/-- C7: the text scorer is total on malformed input — null, empty-string
and non-string inputs all score exactly 0.0, whatever the external
sub-scorers do. -/
theorem C7_text_total_on_malformed (a : Analyzer) :
    calculate_text_sentiment a .null = 0 ∧
    calculate_text_sentiment a (.str "") = 0 ∧
    calculate_text_sentiment a .nonString = 0 := by
  refine ⟨rfl, ?_, rfl⟩
  simp [calculate_text_sentiment]

/-- C8: for every combination of supplied modalities the combined score is
the weighted sum of the supplied modalities' normalized scores (text
remapped by `(s+1)/2` with weight 0.4, activities 0.3, survey 0.3)
divided by the sum of the weights actually used, absent modalities
contributing neither score nor weight; with no modality supplied it is
exactly 0.5. -/
theorem C8_weighted_fusion (a : Analyzer) (t? : Option String)
    (d? : Option ActivitiesData) (s? : Option (List (String × String))) :
    (text_supplied t? = false → activities_supplied d? = false → survey_supplied s? = false →
      calculate_combined_sentiment a t? d? s? = 1/2) ∧
    (text_supplied t? = true ∨ activities_supplied d? = true ∨ survey_supplied s? = true →
      calculate_combined_sentiment a t? d? s? =
        ((if text_supplied t? = true then
            (calculate_text_sentiment a (.str (t?.getD "")) + 1) / 2 * (2/5) else 0) +
          (if activities_supplied d? = true then
            calculate_behavioral_sentiment (d?.getD {}) * (3/10) else 0) +
          (if survey_supplied s? = true then
            calculate_survey_sentiment (s?.getD []) * (3/10) else 0)) /
        ((if text_supplied t? = true then (2/5 : ℚ) else 0) +
          (if activities_supplied d? = true then (3/10 : ℚ) else 0) +
          (if survey_supplied s? = true then (3/10 : ℚ) else 0))) := by
  constructor
  · intro h1 h2 h3
    simp [calculate_combined_sentiment, combined_entries_eq, h1, h2, h3]
  · intro hsup
    have hne : (combined_entries a t? d? s?).isEmpty = false := by
      rw [combined_entries_eq]
      rcases hsup with h | h | h <;> simp [h]
    by_cases ht : text_supplied t? = true <;>
      by_cases hd : activities_supplied d? = true <;>
      by_cases hs : survey_supplied s? = true <;>
      simp [calculate_combined_sentiment, combined_entries_eq, ht, hd, hs] at hne ⊢ <;>
      ring

/-- Witness for C8 with no modality supplied. -/
theorem C8_weighted_fusion_witness :
    calculate_combined_sentiment A0 none none none = 1/2 :=
  (C8_weighted_fusion A0 none none none).1 rfl rfl rfl

/-- C9: range invariant for every scorer and every input — text scores lie
in [-1,1]; behavioral, survey and combined scores lie in [0,1], the
latter two without any final clamp in the source. -/
theorem C9_score_ranges (a : Analyzer) :
    (∀ t, -1 ≤ calculate_text_sentiment a t ∧ calculate_text_sentiment a t ≤ 1) ∧
    (∀ d, 0 ≤ calculate_behavioral_sentiment d ∧ calculate_behavioral_sentiment d ≤ 1) ∧
    (∀ rs, 0 ≤ calculate_survey_sentiment rs ∧ calculate_survey_sentiment rs ≤ 1) ∧
    (∀ t? d? s?, 0 ≤ calculate_combined_sentiment a t? d? s? ∧
        calculate_combined_sentiment a t? d? s? ≤ 1) :=
  ⟨text_sentiment_range a, behavioral_sentiment_range, survey_sentiment_range,
   combined_sentiment_range a⟩

/-- C10: when the text branch of the dispatch is taken, the returned
sentiment score is the raw text score on the [-1,1] scale (no `(s+1)/2`
remapping); such a score can be negative (concretely, "bad" scores -1
when the external analyzers are unavailable); and every negative score is
classified as level `negative` by the interpretation layer. -/
theorem C10_text_branch_raw_scale (a : Analyzer) (d : RequestData) (t : String) :
    (d.text = some t → hasNonBlankText d = true →
      calculate_sentiment a d = (calculate_text_sentiment a (.str t), "text_analysis")) ∧
    calculate_text_sentiment A0 (.str "bad") = -1 ∧
    (∀ s : ℚ, s < 0 → (get_sentiment_interpretation s).level = "negative") := by
  refine ⟨fun ht hnb => ?_, text_bad_eq, fun s hs => ?_⟩
  · simp [calculate_sentiment, hnb, ht]
  · simp only [get_sentiment_interpretation]
    split_ifs with h1 h2
    · linarith
    · rfl
    · linarith

/-- Witness for C10 at a concrete negative-text payload. -/
theorem C10_text_branch_raw_scale_witness :
    calculate_sentiment A0 { text := some "bad" } =
      (calculate_text_sentiment A0 (.str "bad"), "text_analysis") :=
  (C10_text_branch_raw_scale A0 { text := some "bad" } "bad").1 rfl (by decide)

end MentalHealth
